import Mathlib

/-!
# Verification of the face-collect image quality-check module

Shallow embedding of the quality-check module (`qualityCheck` module of the
repository): types `QualityLevel`, `QualityMetrics`, `QualityThresholds`, the
constant `QUALITY_THRESHOLDS`, and the functions `calculateSharpness`,
`calculateBrightness`, `getQualityLevel`, `getLightingQualityLevel`,
`calculateOverallQuality`, `analyzeImageQuality` and `getQualitySummary`.

Modelling conventions:
* JS numbers are modelled as `ℚ` (the module only does field arithmetic,
  `Math.floor`, `Math.abs`, `Math.round`, `Math.min/max` on them).
* An `ImageData` is its `width`, `height` and the flat RGBA `data` array,
  modelled as a total function `Int → ℚ` from flat index to channel value
  (every access the module performs is in bounds after clamping).
* `base64ToImageData` is browser DOM code; its outcome is modelled as an
  `Option ImageData` argument to `analyzeImageQuality`: `none` is a decode /
  pixel-access failure (the promise rejecting, caught by the `try/catch`),
  `some img` is a successful decode.
* The imperative accumulation loops (`sum`, `count` mutated in nested `for`
  loops) are modelled as nested left folds over the integer ranges the loops
  traverse, carrying the pair `(sum, count)`.
-/

/-- The quality level enumeration: the string union `'High' | 'Medium' | 'Low'`. -/
inductive QualityLevel where
  | High
  | Medium
  | Low
deriving DecidableEq, Repr

/-- `faceSize` component of `QualityMetrics`. -/
structure FaceSizeMetric where
  width : ℚ
  height : ℚ
  level : QualityLevel
deriving DecidableEq, Repr

/-- `sharpness` component of `QualityMetrics`. -/
structure SharpnessMetric where
  variance : ℚ
  level : QualityLevel
deriving DecidableEq, Repr

/-- `lighting` component of `QualityMetrics`. -/
structure LightingMetric where
  brightness : ℚ
  level : QualityLevel
deriving DecidableEq, Repr

/-- The `QualityMetrics` record returned by `analyzeImageQuality`. -/
structure QualityMetrics where
  faceSize : FaceSizeMetric
  sharpness : SharpnessMetric
  lighting : LightingMetric
  overall : QualityLevel
deriving DecidableEq, Repr

/-- A `{ high, medium }` minimum-threshold pair (face size, sharpness). -/
structure MinThresholds where
  high : ℚ
  medium : ℚ
deriving DecidableEq, Repr

/-- A `{ min, max }` brightness range. -/
structure BrightRange where
  min : ℚ
  max : ℚ
deriving DecidableEq, Repr

/-- The `lighting` part of `QualityThresholds`. -/
structure LightThresholds where
  high : BrightRange
  medium : BrightRange
deriving DecidableEq, Repr

/-- The `QualityThresholds` record. -/
structure QualityThresholds where
  faceSize : MinThresholds
  sharpness : MinThresholds
  lighting : LightThresholds
deriving DecidableEq, Repr

/-- The constant `QUALITY_THRESHOLDS` of the module. -/
def QUALITY_THRESHOLDS : QualityThresholds :=
  { faceSize := { high := 200, medium := 120 }
    sharpness := { high := 1000, medium := 500 }
    lighting := { high := { min := 80, max := 180 }, medium := { min := 50, max := 220 } } }

/-- A decoded image: `width`, `height` and the flat RGBA `data` array,
modelled as a total function from flat index to channel value. -/
structure ImageData where
  width : ℕ
  height : ℕ
  data : Int → ℚ

/-- The optional face bounding box `{ x, y, width, height }`. -/
structure FaceBox where
  x : ℚ
  y : ℚ
  width : ℚ
  height : ℚ
deriving DecidableEq, Repr

/-- The analysis region `startX/startY/endX/endY` both pixel loops compute. -/
structure Region where
  startX : Int
  startY : Int
  endX : Int
  endY : Int
deriving DecidableEq, Repr

/-- The clamped analysis region, as computed identically at the top of
`calculateSharpness` and `calculateBrightness`: the whole image when no box is
given, otherwise `startX = max(0, floor(x))`, `startY = max(0, floor(y))`,
`endX = min(width, floor(x + width))`, `endY = min(height, floor(y + height))`. -/
def clampRegion (imageData : ImageData) (faceBox : Option FaceBox) : Region :=
  match faceBox with
  | none => ⟨0, 0, (imageData.width : Int), (imageData.height : Int)⟩
  | some b =>
      ⟨max 0 ⌊b.x⌋, max 0 ⌊b.y⌋,
       min (imageData.width : Int) ⌊b.x + b.width⌋,
       min (imageData.height : Int) ⌊b.y + b.height⌋⟩

/-- The integer sequence `a, a+1, …, b-1` traversed by a
`for (let i = a; i < b; i++)` loop. -/
def intRange (a b : Int) : List Int :=
  (List.range (b - a).toNat).map (fun k : ℕ => a + (k : Int))

/-- Grayscale value of pixel `(x, y)`: the unweighted channel average
`(data[idx] + data[idx+1] + data[idx+2]) / 3` with `idx = (y*width + x)*4`,
as computed for `center`/`top`/`bottom`/`left`/`right` in `calculateSharpness`. -/
def grayAt (imageData : ImageData) (x y : Int) : ℚ :=
  let idx := (y * (imageData.width : Int) + x) * 4
  (imageData.data idx + imageData.data (idx + 1) + imageData.data (idx + 2)) / 3

/-- Body of the `calculateSharpness` loop at pixel `(x, y)`: the squared
absolute Laplacian response `|4*center − top − bottom − left − right|²` on
grayscale values. -/
def lapPixel (imageData : ImageData) (x y : Int) : ℚ :=
  let center := grayAt imageData x y
  let top := grayAt imageData x (y - 1)
  let bottom := grayAt imageData x (y + 1)
  let left := grayAt imageData (x - 1) y
  let right := grayAt imageData (x + 1) y
  let laplacian := |4 * center - top - bottom - left - right|
  laplacian * laplacian

/-- Body of the `calculateBrightness` loop at pixel `(x, y)`: the perceptual
luminance `0.299*data[idx] + 0.587*data[idx+1] + 0.114*data[idx+2]`. -/
def lumPixel (imageData : ImageData) (x y : Int) : ℚ :=
  let idx := (y * (imageData.width : Int) + x) * 4
  299 / 1000 * imageData.data idx + 587 / 1000 * imageData.data (idx + 1)
    + 114 / 1000 * imageData.data (idx + 2)

/-- `calculateSharpness`: mean squared Laplacian response over the interior
pixels `startX+1 ≤ x < endX-1`, `startY+1 ≤ y < endY-1` of the clamped region,
accumulated exactly as the nested loops do (`sum`, `count`), returning
`sum / count` when `count > 0` and `0` otherwise. -/
def calculateSharpness (imageData : ImageData) (faceBox : Option FaceBox) : ℚ :=
  let r := clampRegion imageData faceBox
  let acc :=
    (intRange (r.startY + 1) (r.endY - 1)).foldl
      (fun a y =>
        (intRange (r.startX + 1) (r.endX - 1)).foldl
          (fun a x => (a.1 + lapPixel imageData x y, a.2 + 1)) a)
      ((0 : ℚ), (0 : ℕ))
  if acc.2 > 0 then acc.1 / (acc.2 : ℚ) else 0

/-- `calculateBrightness`: mean perceptual luminance over the pixels of the
clamped region, accumulated exactly as the nested loops do, returning
`sum / count` when `count > 0` and `0` otherwise. -/
def calculateBrightness (imageData : ImageData) (faceBox : Option FaceBox) : ℚ :=
  let r := clampRegion imageData faceBox
  let acc :=
    (intRange r.startY r.endY).foldl
      (fun a y =>
        (intRange r.startX r.endX).foldl
          (fun a x => (a.1 + lumPixel imageData x y, a.2 + 1)) a)
      ((0 : ℚ), (0 : ℕ))
  if acc.2 > 0 then acc.1 / (acc.2 : ℚ) else 0

/-- `getQualityLevel`: threshold comparison for face size and sharpness. -/
def getQualityLevel (value : ℚ) (thresholds : MinThresholds) : QualityLevel :=
  if value ≥ thresholds.high then .High
  else if value ≥ thresholds.medium then .Medium
  else .Low

/-- `getLightingQualityLevel`: range check, ideal range first. -/
def getLightingQualityLevel (brightness : ℚ) (thresholds : LightThresholds) : QualityLevel :=
  if brightness ≥ thresholds.high.min ∧ brightness ≤ thresholds.high.max then .High
  else if brightness ≥ thresholds.medium.min ∧ brightness ≤ thresholds.medium.max then .Medium
  else .Low

/-- `calculateOverallQuality`: Low if any level is Low, else Medium if any is
Medium, else High. -/
def calculateOverallQuality (faceSizeLevel sharpnessLevel lightingLevel : QualityLevel) :
    QualityLevel :=
  let levels := [faceSizeLevel, sharpnessLevel, lightingLevel]
  if levels.contains .Low then .Low
  else if levels.contains .Medium then .Medium
  else .High

/-- `analyzeImageQuality`. The `try/catch` around `base64ToImageData` is
modelled by the `Option ImageData` argument: `none` (decode or pixel-access
failure) takes the `catch` branch and returns the all-Low default record.
`faceBox?.width || imageDataObj.width` is JS `||`: it falls back to the image
dimension when the box is absent or its dimension is `0` (falsy). -/
def analyzeImageQuality (decoded : Option ImageData) (faceBox : Option FaceBox) :
    QualityMetrics :=
  match decoded with
  | some imageDataObj =>
      let faceWidth : ℚ :=
        match faceBox with
        | some b => if b.width = 0 then (imageDataObj.width : ℚ) else b.width
        | none => (imageDataObj.width : ℚ)
      let faceHeight : ℚ :=
        match faceBox with
        | some b => if b.height = 0 then (imageDataObj.height : ℚ) else b.height
        | none => (imageDataObj.height : ℚ)
      let faceSizeLevel := getQualityLevel faceWidth QUALITY_THRESHOLDS.faceSize
      let sharpnessVariance := calculateSharpness imageDataObj faceBox
      let sharpnessLevel := getQualityLevel sharpnessVariance QUALITY_THRESHOLDS.sharpness
      let brightness := calculateBrightness imageDataObj faceBox
      let lightingLevel := getLightingQualityLevel brightness QUALITY_THRESHOLDS.lighting
      let overallLevel := calculateOverallQuality faceSizeLevel sharpnessLevel lightingLevel
      { faceSize := { width := faceWidth, height := faceHeight, level := faceSizeLevel }
        sharpness := { variance := sharpnessVariance, level := sharpnessLevel }
        lighting := { brightness := brightness, level := lightingLevel }
        overall := overallLevel }
  | none =>
      { faceSize := { width := 0, height := 0, level := .Low }
        sharpness := { variance := 0, level := .Low }
        lighting := { brightness := 0, level := .Low }
        overall := .Low }

/-- The level names as the strings the source union type uses. -/
def levelStr : QualityLevel → String
  | .High => "High"
  | .Medium => "Medium"
  | .Low => "Low"

/-- JS `Math.round`: floor of `q + 1/2` (halves round toward positive infinity). -/
def jsRound (q : ℚ) : Int := ⌊q + 1 / 2⌋

/-- JS number-to-string conversion as used by template literals; exact on
integral values, which is all the summary interpolates apart from `width`. -/
def numStr (q : ℚ) : String :=
  if q.den = 1 then toString q.num else toString q

/-- JS `Array.prototype.join(sep)`. -/
def joinSep (sep : String) : List String → String
  | [] => ""
  | [s] => s
  | s :: rest => s ++ sep ++ joinSep sep rest

/-- `getQualitySummary`: the one-line human-readable summary string. -/
def getQualitySummary (metrics : QualityMetrics) : String :=
  let details :=
    ["Face Size: " ++ levelStr metrics.faceSize.level ++ " ("
        ++ numStr metrics.faceSize.width ++ "px)",
     "Sharpness: " ++ levelStr metrics.sharpness.level ++ " ("
        ++ toString (jsRound metrics.sharpness.variance) ++ ")",
     "Lighting: " ++ levelStr metrics.lighting.level ++ " ("
        ++ toString (jsRound metrics.lighting.brightness) ++ ")"]
  "Overall: " ++ levelStr metrics.overall ++ " | " ++ joinSep " | " details

/-! ## Specification-side definitions

These formalise the wording of the specification (grayscale, Laplacian,
luminance, region/interior pixel sets, means) independently of the loop
structure of the source, so the claim theorems relate the two. -/

/-- Grayscale per the spec's wording: the unweighted average `(R + G + B) / 3`
of the pixel's channels. -/
def graySpec (img : ImageData) (x y : Int) : ℚ :=
  let idx := (y * (img.width : Int) + x) * 4
  (img.data idx + img.data (idx + 1) + img.data (idx + 2)) / 3

/-- Squared absolute discrete Laplacian `4*center − top − bottom − left − right`
on grayscale values, per the spec's wording. -/
def laplacianSq (img : ImageData) (p : Int × Int) : ℚ :=
  let l := |4 * graySpec img p.1 p.2 - graySpec img p.1 (p.2 - 1) - graySpec img p.1 (p.2 + 1)
      - graySpec img (p.1 - 1) p.2 - graySpec img (p.1 + 1) p.2|
  l * l

/-- Perceptual luminance `0.299*R + 0.587*G + 0.114*B`, per the spec's wording. -/
def luminanceSpec (img : ImageData) (p : Int × Int) : ℚ :=
  let idx := (p.2 * (img.width : Int) + p.1) * 4
  299 / 1000 * img.data idx + 587 / 1000 * img.data (idx + 1)
    + 114 / 1000 * img.data (idx + 2)

/-- All pixels `(x, y)` of a region. -/
def regionPixels (r : Region) : Finset (Int × Int) :=
  Finset.Ico r.startX r.endX ×ˢ Finset.Ico r.startY r.endY

/-- Interior pixels of a region: the pixels remaining after excluding the
outermost 1-pixel border (those with a full 4-neighborhood inside it). -/
def interiorPixels (r : Region) : Finset (Int × Int) :=
  Finset.Ico (r.startX + 1) (r.endX - 1) ×ˢ Finset.Ico (r.startY + 1) (r.endY - 1)

/-- Sharpness per the spec: mean of the squared Laplacian over the interior
pixels (the `ℚ` division-by-zero convention makes this `0` when there are no
interior pixels, matching the code's `count > 0` guard). -/
def sharpnessSpec (img : ImageData) (r : Region) : ℚ :=
  (∑ p ∈ interiorPixels r, laplacianSq img p) / ((interiorPixels r).card : ℚ)

/-- Brightness per the spec: mean perceptual luminance over the region pixels. -/
def brightnessSpec (img : ImageData) (r : Region) : ℚ :=
  (∑ p ∈ regionPixels r, luminanceSpec img p) / ((regionPixels r).card : ℚ)

/-- Rank of a quality level in the total order Low < Medium < High. -/
def levelRank : QualityLevel → ℕ
  | .Low => 0
  | .Medium => 1
  | .High => 2

/-- Minimum of two quality levels in the order Low < Medium < High. -/
def minLevel (a b : QualityLevel) : QualityLevel :=
  if levelRank a ≤ levelRank b then a else b

/-! ## Loop-to-sum lemmas -/

lemma intRange_nil {a b : Int} (h : b ≤ a) : intRange a b = [] := by
  unfold intRange
  have h0 : (b - a).toNat = 0 := by omega
  simp [h0]

lemma intRange_cons {a b : Int} (h : a < b) : intRange a b = a :: intRange (a + 1) b := by
  unfold intRange
  obtain ⟨n, hn⟩ : ∃ n, (b - a).toNat = n + 1 := ⟨(b - a).toNat - 1, by omega⟩
  have hn' : (b - (a + 1)).toNat = n := by omega
  rw [hn, hn', List.range_succ_eq_map, List.map_cons, List.map_map]
  congr 1
  · simp
  · apply List.map_congr_left
    intro k _
    simp only [Function.comp_apply]
    push_cast
    ring

lemma length_intRange (a b : Int) : (intRange a b).length = (b - a).toNat := by
  simp [intRange]

lemma sum_intRange_aux (f : Int → ℚ) :
    ∀ (n : ℕ) (a b : Int), (b - a).toNat = n →
      ((intRange a b).map f).sum = ∑ x ∈ Finset.Ico a b, f x := by
  intro n
  induction n with
  | zero =>
      intro a b hn
      rw [intRange_nil (by omega), Finset.Ico_eq_empty (by omega)]
      simp
  | succ n ih =>
      intro a b hn
      rw [intRange_cons (by omega), List.map_cons, List.sum_cons, ih (a + 1) b (by omega)]
      have hins : Finset.Ico a b = insert a (Finset.Ico (a + 1) b) := by
        ext x
        simp only [Finset.mem_Ico, Finset.mem_insert]
        omega
      rw [hins, Finset.sum_insert (by simp only [Finset.mem_Ico]; omega)]

lemma sum_intRange (f : Int → ℚ) (a b : Int) :
    ((intRange a b).map f).sum = ∑ x ∈ Finset.Ico a b, f x :=
  sum_intRange_aux f (b - a).toNat a b rfl

lemma foldl_row (f : Int → ℚ) (l : List Int) :
    ∀ p : ℚ × ℕ,
      l.foldl (fun a x => (a.1 + f x, a.2 + 1)) p = (p.1 + (l.map f).sum, p.2 + l.length) := by
  induction l with
  | nil =>
      intro p
      simp [Prod.ext_iff]
  | cons x xs ih =>
      intro p
      rw [List.foldl_cons, ih]
      simp only [List.map_cons, List.sum_cons, List.length_cons, Prod.mk.injEq]
      constructor <;> ring

lemma foldl_rows (g : Int → ℚ) (n : ℕ) (l : List Int) :
    ∀ p : ℚ × ℕ,
      l.foldl (fun a y => (a.1 + g y, a.2 + n)) p = (p.1 + (l.map g).sum, p.2 + l.length * n) := by
  induction l with
  | nil =>
      intro p
      simp [Prod.ext_iff]
  | cons y ys ih =>
      intro p
      rw [List.foldl_cons, ih]
      simp only [List.map_cons, List.sum_cons, List.length_cons, Prod.mk.injEq]
      constructor <;> ring

lemma nestedFold_eq (h : Int × Int → ℚ) (sX eX sY eY : Int) :
    (intRange sY eY).foldl
        (fun a y => (intRange sX eX).foldl (fun a x => (a.1 + h (x, y), a.2 + 1)) a)
        ((0 : ℚ), (0 : ℕ))
      = (∑ p ∈ Finset.Ico sX eX ×ˢ Finset.Ico sY eY, h p,
         (eY - sY).toNat * (eX - sX).toNat) := by
  have hfun : (fun (a : ℚ × ℕ) y =>
        (intRange sX eX).foldl (fun a x => (a.1 + h (x, y), a.2 + 1)) a)
      = fun (a : ℚ × ℕ) y =>
        (a.1 + ((intRange sX eX).map (fun x => h (x, y))).sum, a.2 + (intRange sX eX).length) := by
    funext a y
    exact foldl_row (fun x => h (x, y)) (intRange sX eX) a
  rw [hfun, foldl_rows]
  simp only [zero_add, sum_intRange, length_intRange, Prod.mk.injEq]
  constructor
  · rw [Finset.sum_product]
    exact Finset.sum_comm
  · trivial

lemma card_regionPixels (r : Region) :
    (regionPixels r).card = (r.endX - r.startX).toNat * (r.endY - r.startY).toNat := by
  simp [regionPixels, Finset.card_product, Int.card_Ico]

lemma card_interiorPixels (r : Region) :
    (interiorPixels r).card
      = (r.endX - 1 - (r.startX + 1)).toNat * (r.endY - 1 - (r.startY + 1)).toNat := by
  simp [interiorPixels, Finset.card_product, Int.card_Ico]

lemma lapPixel_eq (img : ImageData) : (fun p : Int × Int => lapPixel img p.1 p.2) = laplacianSq img := by
  funext p
  rfl

lemma lumPixel_eq (img : ImageData) : (fun p : Int × Int => lumPixel img p.1 p.2) = luminanceSpec img := by
  funext p
  rfl

lemma calculateBrightness_eq (img : ImageData) (fb : Option FaceBox) :
    calculateBrightness img fb = brightnessSpec img (clampRegion img fb) := by
  simp only [calculateBrightness, brightnessSpec]
  rw [nestedFold_eq (fun p => lumPixel img p.1 p.2), lumPixel_eq]
  set r := clampRegion img fb
  rw [card_regionPixels]
  simp only [regionPixels]
  rcases Nat.eq_zero_or_pos ((r.endY - r.startY).toNat * (r.endX - r.startX).toNat) with h0 | hpos
  · rw [if_neg (by omega)]
    have hc : (r.endX - r.startX).toNat * (r.endY - r.startY).toNat = 0 := by
      rw [Nat.mul_comm]
      exact h0
    rw [hc]
    simp
  · rw [if_pos (by omega)]
    have hc : (r.endX - r.startX).toNat * (r.endY - r.startY).toNat
        = (r.endY - r.startY).toNat * (r.endX - r.startX).toNat := by ring
    rw [hc]

lemma calculateSharpness_eq (img : ImageData) (fb : Option FaceBox) :
    calculateSharpness img fb = sharpnessSpec img (clampRegion img fb) := by
  simp only [calculateSharpness, sharpnessSpec]
  rw [nestedFold_eq (fun p => lapPixel img p.1 p.2), lapPixel_eq]
  set r := clampRegion img fb
  rw [card_interiorPixels]
  simp only [interiorPixels]
  rcases Nat.eq_zero_or_pos
      ((r.endY - 1 - (r.startY + 1)).toNat * (r.endX - 1 - (r.startX + 1)).toNat) with h0 | hpos
  · rw [if_neg (by omega)]
    have hc : (r.endX - 1 - (r.startX + 1)).toNat * (r.endY - 1 - (r.startY + 1)).toNat = 0 := by
      rw [Nat.mul_comm]
      exact h0
    rw [hc]
    simp
  · rw [if_pos (by omega)]
    have hc : (r.endX - 1 - (r.startX + 1)).toNat * (r.endY - 1 - (r.startY + 1)).toNat
        = (r.endY - 1 - (r.startY + 1)).toNat * (r.endX - 1 - (r.startX + 1)).toNat := by ring
    rw [hc]

/-! ## Concrete test images and boxes -/

/-- A 1×1 image whose only pixel has all channels equal to 100. -/
def cImg1 : ImageData := ⟨1, 1, fun _ => 100⟩

/-- A box lying entirely outside `cImg1` (x = 1000 ≥ width = 1). -/
def outsideBox : FaceBox := ⟨1000, 0, 5, 5⟩

/-- A box much larger than `cImg1`. -/
def bigBox : FaceBox := ⟨0, 0, 500, 500⟩

/-- A box with zero width. -/
def zeroWidthBox : FaceBox := ⟨0, 0, 0, 5⟩

/-- A 300×300 image whose every pixel has all channels equal to 128. -/
def grayImg300 : ImageData := ⟨300, 300, fun _ => 128⟩

/-! ## Claim theorems -/

/-- C1: for every triple of sub-levels, `calculateOverallQuality` returns the
minimum of the three under the total order Low < Medium < High — equivalently
Low if any sub-level is Low, else Medium if any is Medium, else High — and the
overall level is never strictly better (higher rank) than any sub-level.
Exhaustive over the 27 combinations. -/
theorem overall_is_min (f s l : QualityLevel) :
    calculateOverallQuality f s l = minLevel f (minLevel s l) ∧
    levelRank (calculateOverallQuality f s l) ≤ levelRank f ∧
    levelRank (calculateOverallQuality f s l) ≤ levelRank s ∧
    levelRank (calculateOverallQuality f s l) ≤ levelRank l := by
  cases f <;> cases s <;> cases l <;> exact ⟨rfl, by decide, by decide, by decide⟩

/-- C2: when the image payload cannot be decoded or pixel access fails (the
`none` case of the modelled decode), `analyzeImageQuality` returns the all-Low
fallback record with `width = height = variance = brightness = 0`; being a
total Lean function on these inputs, it returns a fully populated
`QualityMetrics` for every input and never propagates an exception. -/
theorem analyze_decode_failure_fallback (fb : Option FaceBox) :
    analyzeImageQuality none fb =
      { faceSize := { width := 0, height := 0, level := .Low }
        sharpness := { variance := 0, level := .Low }
        lighting := { brightness := 0, level := .Low }
        overall := .Low } := rfl

/-- C8: the face-size level is monotone non-decreasing in the width under
Low < Medium < High, with width ≥ 200 → High, 120 ≤ width < 200 → Medium,
width < 120 → Low, and the boundary values 119 → Low, 120 → Medium,
199 → Medium, 200 → High. -/
theorem faceSize_level_monotone :
    (∀ w1 w2 : ℚ, w1 ≤ w2 →
      levelRank (getQualityLevel w1 QUALITY_THRESHOLDS.faceSize)
        ≤ levelRank (getQualityLevel w2 QUALITY_THRESHOLDS.faceSize)) ∧
    getQualityLevel 119 QUALITY_THRESHOLDS.faceSize = .Low ∧
    getQualityLevel 120 QUALITY_THRESHOLDS.faceSize = .Medium ∧
    getQualityLevel 199 QUALITY_THRESHOLDS.faceSize = .Medium ∧
    getQualityLevel 200 QUALITY_THRESHOLDS.faceSize = .High ∧
    (∀ w : ℚ, 200 ≤ w → getQualityLevel w QUALITY_THRESHOLDS.faceSize = .High) ∧
    (∀ w : ℚ, 120 ≤ w → w < 200 → getQualityLevel w QUALITY_THRESHOLDS.faceSize = .Medium) ∧
    (∀ w : ℚ, w < 120 → getQualityLevel w QUALITY_THRESHOLDS.faceSize = .Low) := by
  refine ⟨?_, ?_, ?_, ?_, ?_, ?_, ?_, ?_⟩
  · intro w1 w2 h
    simp only [getQualityLevel, QUALITY_THRESHOLDS]
    split_ifs <;> simp [levelRank] <;> linarith
  · with_unfolding_all rfl
  · with_unfolding_all rfl
  · with_unfolding_all rfl
  · with_unfolding_all rfl
  · intro w h
    simp only [getQualityLevel, QUALITY_THRESHOLDS, ge_iff_le]
    rw [if_pos h]
  · intro w h1 h2
    simp only [getQualityLevel, QUALITY_THRESHOLDS, ge_iff_le]
    rw [if_neg (by linarith), if_pos h1]
  · intro w h
    simp only [getQualityLevel, QUALITY_THRESHOLDS, ge_iff_le]
    rw [if_neg (by linarith), if_neg (by linarith)]

/-- Witness for C8: the monotonicity and the guarded range facts applied at
concrete widths. -/
theorem faceSize_level_monotone_witness :
    levelRank (getQualityLevel 130 QUALITY_THRESHOLDS.faceSize)
        ≤ levelRank (getQualityLevel 250 QUALITY_THRESHOLDS.faceSize) ∧
    getQualityLevel 250 QUALITY_THRESHOLDS.faceSize = .High ∧
    getQualityLevel 150 QUALITY_THRESHOLDS.faceSize = .Medium ∧
    getQualityLevel 50 QUALITY_THRESHOLDS.faceSize = .Low :=
  ⟨faceSize_level_monotone.1 130 250 (by norm_num),
   faceSize_level_monotone.2.2.2.2.2.1 250 (by norm_num),
   faceSize_level_monotone.2.2.2.2.2.2.1 150 (by norm_num) (by norm_num),
   faceSize_level_monotone.2.2.2.2.2.2.2 50 (by norm_num)⟩

/-- C3 counterexample: on the 1×1 all-100 image, a box entirely outside the
image gives brightness 0 (lighting level Low), not the full-image brightness
100 (lighting level High): the analyzer does not fall back to treating the
whole image as the analysis region. -/
theorem region_outside_gives_zero_not_fullimage :
    calculateBrightness cImg1 (some outsideBox) = 0 ∧
    calculateBrightness cImg1 none = 100 ∧
    getLightingQualityLevel (calculateBrightness cImg1 (some outsideBox))
        QUALITY_THRESHOLDS.lighting = .Low ∧
    getLightingQualityLevel (calculateBrightness cImg1 none)
        QUALITY_THRESHOLDS.lighting = .High := by
  refine ⟨?_, ?_, ?_, ?_⟩ <;> with_unfolding_all rfl

/-- C3 amended: if the supplied box is entirely outside the image or has
non-positive width/height after clamping (i.e. the clamped region is empty),
the sharpness and lighting sub-metrics are computed over no pixels and both
come out 0 — the analyzer does not fall back to the whole image. -/
theorem region_empty_zero_metrics (img : ImageData) (b : FaceBox)
    (h : (clampRegion img (some b)).endX ≤ (clampRegion img (some b)).startX ∨
         (clampRegion img (some b)).endY ≤ (clampRegion img (some b)).startY) :
    calculateSharpness img (some b) = 0 ∧ calculateBrightness img (some b) = 0 := by
  constructor
  · rw [calculateSharpness_eq]
    unfold sharpnessSpec
    have hc : (interiorPixels (clampRegion img (some b))).card = 0 := by
      rw [card_interiorPixels]
      rcases h with h | h
      · have h0 : ((clampRegion img (some b)).endX - 1
            - ((clampRegion img (some b)).startX + 1)).toNat = 0 := by omega
        rw [h0, Nat.zero_mul]
      · have h0 : ((clampRegion img (some b)).endY - 1
            - ((clampRegion img (some b)).startY + 1)).toNat = 0 := by omega
        rw [h0, Nat.mul_zero]
    rw [hc]
    simp
  · rw [calculateBrightness_eq]
    unfold brightnessSpec
    have hc : (regionPixels (clampRegion img (some b))).card = 0 := by
      rw [card_regionPixels]
      rcases h with h | h
      · have h0 : ((clampRegion img (some b)).endX - (clampRegion img (some b)).startX).toNat = 0 := by
          omega
        rw [h0, Nat.zero_mul]
      · have h0 : ((clampRegion img (some b)).endY - (clampRegion img (some b)).startY).toNat = 0 := by
          omega
        rw [h0, Nat.mul_zero]
    rw [hc]
    simp

/-- Witness for the amended C3 at the concrete out-of-bounds box. -/
theorem region_empty_zero_metrics_witness :
    calculateSharpness cImg1 (some outsideBox) = 0 ∧
    calculateBrightness cImg1 (some outsideBox) = 0 := by
  have hr : clampRegion cImg1 (some outsideBox) = ⟨1000, 0, 1, 1⟩ := by
    with_unfolding_all rfl
  exact region_empty_zero_metrics cImg1 outsideBox (by rw [hr]; exact Or.inl (by decide))

/-- C4 counterexample: on the 1×1 image, the 500×500 box is reported as
`faceSize.width = height = 500`, exceeding the image's dimensions (1): the
reported face size is not clamped to the image. -/
theorem faceSize_exceeds_image :
    (analyzeImageQuality (some cImg1) (some bigBox)).faceSize.width = 500 ∧
    (analyzeImageQuality (some cImg1) (some bigBox)).faceSize.height = 500 ∧
    (cImg1.width : ℚ) = 1 ∧ (cImg1.height : ℚ) = 1 ∧ ¬((500 : ℚ) ≤ 1) :=
  ⟨by with_unfolding_all rfl, by with_unfolding_all rfl, by norm_num [cImg1],
   by norm_num [cImg1], by norm_num⟩

/-- C4 amended: the reported `faceSize.width/height` are the supplied box
dimensions taken verbatim (whenever nonzero) and may exceed the image's
dimensions; clamping to the image bounds applies only to the pixel analysis
region used for the sharpness and lighting metrics. -/
theorem faceSize_unclamped_region_clamped (img : ImageData) (b : FaceBox) :
    (b.width ≠ 0 → (analyzeImageQuality (some img) (some b)).faceSize.width = b.width) ∧
    (b.height ≠ 0 → (analyzeImageQuality (some img) (some b)).faceSize.height = b.height) ∧
    0 ≤ (clampRegion img (some b)).startX ∧
    0 ≤ (clampRegion img (some b)).startY ∧
    (clampRegion img (some b)).endX ≤ (img.width : Int) ∧
    (clampRegion img (some b)).endY ≤ (img.height : Int) := by
  refine ⟨?_, ?_, ?_, ?_, ?_, ?_⟩
  · intro h
    simp [analyzeImageQuality, h]
  · intro h
    simp [analyzeImageQuality, h]
  · simp [clampRegion]
  · simp [clampRegion]
  · simp [clampRegion]
  · simp [clampRegion]

/-- Witness for the amended C4 at the concrete oversized box. -/
theorem faceSize_unclamped_region_clamped_witness :
    (analyzeImageQuality (some cImg1) (some bigBox)).faceSize.width = bigBox.width ∧
    (analyzeImageQuality (some cImg1) (some bigBox)).faceSize.height = bigBox.height :=
  ⟨(faceSize_unclamped_region_clamped cImg1 bigBox).1 (by norm_num [bigBox]),
   (faceSize_unclamped_region_clamped cImg1 bigBox).2.1 (by norm_num [bigBox])⟩

/-- C5 counterexample: a supplied box with width 0 on the 1×1 image yields
`faceSize.width = 1` (the image width), not the supplied box width 0: JS `||`
falls back on the falsy value 0, unlike the `??` of the claim. -/
theorem faceSize_zero_width_falls_back :
    zeroWidthBox.width = 0 ∧
    (analyzeImageQuality (some cImg1) (some zeroWidthBox)).faceSize.width = 1 ∧
    (1 : ℚ) ≠ 0 :=
  ⟨rfl, by with_unfolding_all rfl, by norm_num⟩

/-- C5 amended: for a successfully decoded image, `faceSize.width` equals the
supplied box's width when that width is nonzero and the image width when the
box width is 0 (JS `||` treats 0 as falsy); likewise for the height; with no
box supplied, the full image dimensions are reported. -/
theorem faceSize_dims (img : ImageData) (b : FaceBox) :
    (analyzeImageQuality (some img) (some b)).faceSize.width
        = (if b.width = 0 then (img.width : ℚ) else b.width) ∧
    (analyzeImageQuality (some img) (some b)).faceSize.height
        = (if b.height = 0 then (img.height : ℚ) else b.height) ∧
    (analyzeImageQuality (some img) none).faceSize.width = (img.width : ℚ) ∧
    (analyzeImageQuality (some img) none).faceSize.height = (img.height : ℚ) := by
  refine ⟨?_, ?_, ?_, ?_⟩ <;> simp [analyzeImageQuality]

/-- C6: for every image and analysis region, the sharpness variance is the
mean over the interior pixels of the clamped region (those with a full
4-neighborhood inside it, i.e. excluding the outermost 1-pixel border) of the
squared absolute discrete Laplacian on unweighted-average grayscale values;
and when the clamped region's width or height is < 3 there are no interior
pixels and the variance is 0 (no error is raised — the function is total). -/
theorem sharpness_is_mean_sq_laplacian (img : ImageData) (fb : Option FaceBox) :
    calculateSharpness img fb = sharpnessSpec img (clampRegion img fb) ∧
    ((clampRegion img fb).endX - (clampRegion img fb).startX < 3 ∨
        (clampRegion img fb).endY - (clampRegion img fb).startY < 3 →
      calculateSharpness img fb = 0) := by
  constructor
  · exact calculateSharpness_eq img fb
  · intro h
    rw [calculateSharpness_eq]
    unfold sharpnessSpec
    have hc : (interiorPixels (clampRegion img fb)).card = 0 := by
      rw [card_interiorPixels]
      rcases h with h | h
      · have h0 : ((clampRegion img fb).endX - 1
            - ((clampRegion img fb).startX + 1)).toNat = 0 := by omega
        rw [h0, Nat.zero_mul]
      · have h0 : ((clampRegion img fb).endY - 1
            - ((clampRegion img fb).startY + 1)).toNat = 0 := by omega
        rw [h0, Nat.mul_zero]
    rw [hc]
    simp

/-- Witness for C6: on the 1×1 image the clamped region is 1×1 (< 3), so the
variance is 0, and the mean-of-squared-Laplacian characterisation holds. -/
theorem sharpness_is_mean_sq_laplacian_witness :
    calculateSharpness cImg1 none = sharpnessSpec cImg1 (clampRegion cImg1 none) ∧
    calculateSharpness cImg1 none = 0 :=
  ⟨(sharpness_is_mean_sq_laplacian cImg1 none).1,
   (sharpness_is_mean_sq_laplacian cImg1 none).2 (Or.inl (by decide))⟩

/-- C7: for every image and analysis region, the brightness is the mean over
the region's pixels of the perceptual luminance `0.299*R + 0.587*G + 0.114*B`
(the empty region giving 0 via the `count > 0` guard), and the lighting level
checks the narrower High range first: `[80, 180]` → High, else `[50, 220]` →
Medium, else Low; in particular 80 → High, 180 → High, 49 → Low, 221 → Low
and 219 → Medium. -/
theorem brightness_is_mean_luminance (img : ImageData) (fb : Option FaceBox) :
    calculateBrightness img fb = brightnessSpec img (clampRegion img fb) ∧
    (∀ b : ℚ, getLightingQualityLevel b QUALITY_THRESHOLDS.lighting
        = if 80 ≤ b ∧ b ≤ 180 then .High
          else if 50 ≤ b ∧ b ≤ 220 then .Medium
          else .Low) ∧
    getLightingQualityLevel 80 QUALITY_THRESHOLDS.lighting = .High ∧
    getLightingQualityLevel 180 QUALITY_THRESHOLDS.lighting = .High ∧
    getLightingQualityLevel 49 QUALITY_THRESHOLDS.lighting = .Low ∧
    getLightingQualityLevel 221 QUALITY_THRESHOLDS.lighting = .Low ∧
    getLightingQualityLevel 219 QUALITY_THRESHOLDS.lighting = .Medium := by
  refine ⟨calculateBrightness_eq img fb, ?_, ?_, ?_, ?_, ?_, ?_⟩
  · intro b
    simp only [getLightingQualityLevel, QUALITY_THRESHOLDS, ge_iff_le]
  · with_unfolding_all rfl
  · with_unfolding_all rfl
  · with_unfolding_all rfl
  · with_unfolding_all rfl
  · with_unfolding_all rfl

/-- C9: the 300×300 uniform gray (128,128,128) image analyzed with no region
yields faceSize 300×300 at level High, sharpness variance 0 at level Low
(zero Laplacian response on a uniform image), brightness exactly 128 at level
High, and overall Low by the worst-case rule. -/
theorem analyze_uniform_gray_300 :
    analyzeImageQuality (some grayImg300) none =
      { faceSize := { width := 300, height := 300, level := .High }
        sharpness := { variance := 0, level := .Low }
        lighting := { brightness := 128, level := .High }
        overall := .Low } := by
  have hr : clampRegion grayImg300 none = ⟨0, 0, 300, 300⟩ := rfl
  have hsharp : calculateSharpness grayImg300 none = 0 := by
    rw [calculateSharpness_eq]
    unfold sharpnessSpec
    have hz : ∀ p ∈ interiorPixels (clampRegion grayImg300 none),
        laplacianSq grayImg300 p = 0 := by
      intro p _
      simp only [laplacianSq, graySpec, grayImg300]
      norm_num
    rw [Finset.sum_eq_zero hz, zero_div]
  have hbright : calculateBrightness grayImg300 none = 128 := by
    rw [calculateBrightness_eq]
    unfold brightnessSpec
    have hl : ∀ p ∈ regionPixels (clampRegion grayImg300 none),
        luminanceSpec grayImg300 p = 128 := by
      intro p _
      simp only [luminanceSpec, grayImg300]
      norm_num
    rw [Finset.sum_congr rfl hl, Finset.sum_const, card_regionPixels, hr]
    norm_num
  simp only [analyzeImageQuality, hsharp, hbright]
  with_unfolding_all rfl

/-- C10: `getQualitySummary` produces exactly the string
`Overall: <overall> | Face Size: <level> (<width>px) | Sharpness: <level>
(<round variance>) | Lighting: <level> (<round brightness>)`: variance and
brightness are rounded, the face height is omitted, and the segments are
joined by `" | "`. -/
theorem summary_format (m : QualityMetrics) :
    getQualitySummary m
      = "Overall: " ++ levelStr m.overall ++ " | " ++ "Face Size: "
          ++ levelStr m.faceSize.level ++ " (" ++ numStr m.faceSize.width ++ "px)"
          ++ " | " ++ "Sharpness: " ++ levelStr m.sharpness.level ++ " ("
          ++ toString (jsRound m.sharpness.variance) ++ ")"
          ++ " | " ++ "Lighting: " ++ levelStr m.lighting.level ++ " ("
          ++ toString (jsRound m.lighting.brightness) ++ ")" := by
  simp only [getQualitySummary, joinSep, String.append_assoc]
